import Mathlib

/-!
Shallow embedding of the monthly analytics backend in
backend/controllers/transactionController.js together with the model-layer
wrappers in backend/models/ProductTransaction.js, and proofs of the spec
claims about them.

Modelling conventions:
* A JS string that may be `undefined` is `Option String`; the JS falsiness
  test `!s` holds for `undefined` and for the empty string.
* A JS number that may be `NaN` is `Option Int` (`none` = `NaN`); the JS
  falsiness test `!n` holds for `NaN` and for `0`.  Prices are `ℚ`.
* A JS `Date` produced by `Date.UTC(year, month, 1)` is a `UTCDate` record
  with a 0-based month index, normalised the way `Date.UTC` normalises a
  month overflow (month 12 rolls into the next year); dates compare by
  their lexicographic key, matching comparison of epoch timestamps.
* An async function that can throw is `Except String`; `try/catch` is a
  `match` on that result.  The Record Store is `Except String (List Record)`:
  `.error` models a store failure surfacing from `find`/`aggregate`.
-/

namespace Roxiler

/-- UTC calendar date at midnight: `year`, 0-based `month` index (as in JS
`Date.UTC`) and 1-based `day`. -/
structure UTCDate where
  year : Int
  month : Int
  day : Int
deriving DecidableEq, Repr

/-- JS `Date.UTC (y, m, 1)` with month-overflow normalisation: for the
positive divisor 12, euclidean `/` and `%` agree with JS floor semantics,
so month 12 rolls into January of the next year. -/
def dateUTC (y m d : Int) : UTCDate :=
  ⟨y + m / 12, m % 12, d⟩

/-- Linear key for comparing dates, monotone in (year, month, day) for the
in-range dates the controller builds; stands for the epoch timestamp. -/
def UTCDate.key (dt : UTCDate) : Int :=
  dt.year * 384 + dt.month * 32 + dt.day

/-- Sale record as stored (schema in ProductTransaction.js): all seven
fields required, `dateOfSale` already a valid date. -/
structure Record where
  title : String
  description : String
  price : ℚ
  category : String
  dateOfSale : UTCDate
  sold : Bool
  image : String
deriving DecidableEq, Repr

/-- Record Store handle: the list of stored records, or a store failure. -/
abbrev Store := Except String (List Record)

/-- JS falsiness of an optional string: `undefined` or the empty string. -/
def strFalsy : Option String → Bool
  | none => true
  | some s => s = ""

/-- JS falsiness of an optional number: `NaN` or `0`. -/
def numFalsy : Option Int → Bool
  | none => true
  | some n => n = 0

/-- Characters remaining after stripping leading and trailing whitespace,
as JS `String.prototype.trim` does. -/
def trimChars (cs : List Char) : List Char :=
  ((cs.dropWhile Char.isWhitespace).reverse.dropWhile Char.isWhitespace).reverse

/-- JS `s.trim()`. -/
def trimJS (s : String) : String :=
  ⟨trimChars s.data⟩

/-- Longest digit prefix of a character list, as consumed by JS `parseInt`. -/
def leadingDigits : List Char → List Char
  | [] => []
  | c :: cs => if c.isDigit then c :: leadingDigits cs else []

/-- Numeric value of a digit list (most significant first). -/
def digitsVal (cs : List Char) : Nat :=
  cs.foldl (fun a c => a * 10 + (c.toNat - 48)) 0

/-- JS `parseInt(s)` (radix 10): trims whitespace, optional sign, then the
longest digit prefix; `none` is `NaN` (no digits). -/
def parseIntJS (s : String) : Option Int :=
  let cs := (trimJS s).toList
  match cs with
  | '-' :: rest =>
      if leadingDigits rest = [] then none
      else some (-(digitsVal (leadingDigits rest) : Int))
  | '+' :: rest =>
      if leadingDigits rest = [] then none
      else some (digitsVal (leadingDigits rest) : Int)
  | _ =>
      if leadingDigits cs = [] then none
      else some (digitsVal (leadingDigits cs) : Int)

/-- JS `parseInt` applied to a possibly-undefined string
(`parseInt(undefined)` is `NaN`). -/
def parseIntOpt : Option String → Option Int
  | none => none
  | some s => parseIntJS s

/-- The monthMap object literal: three-letter month name to 1-based month
number (property lookup on a JS object, `none` = `undefined`). -/
def monthMap (s : String) : Option Nat :=
  if s = "Jan" then some 1
  else if s = "Feb" then some 2
  else if s = "Mar" then some 3
  else if s = "Apr" then some 4
  else if s = "May" then some 5
  else if s = "Jun" then some 6
  else if s = "Jul" then some 7
  else if s = "Aug" then some 8
  else if s = "Sep" then some 9
  else if s = "Oct" then some 10
  else if s = "Nov" then some 11
  else if s = "Dec" then some 12
  else none

/-- getMonthNumber: throws "Invalid month" on a falsy or non-string month
and on a name not in monthMap (after trimming); all twelve mapped numbers
are truthy, so the `!monthNumber` test only fires on a missing key. -/
def getMonthNumber (month : Option String) : Except String Nat :=
  match month with
  | none => .error "Invalid month"
  | some s =>
      if s = "" then .error "Invalid month"
      else
        match monthMap (trimJS s) with
        | some n => .ok n
        | none => .error "Invalid month"

/-- Resolved half-open date interval. -/
structure DateRange where
  startDate : UTCDate
  endDate : UTCDate
deriving DecidableEq, Repr

/-- getDateRange: throws "Invalid year" when the year is `NaN`, otherwise
the first day of the selected month and the first day of the next month,
both via `Date.UTC`. -/
def getDateRange (monthNumber : Nat) (year : Option Int) : Except String DateRange :=
  match year with
  | none => .error "Invalid year"
  | some y => .ok ⟨dateUTC y ((monthNumber : Int) - 1) 1, dateUTC y (monthNumber : Int) 1⟩

/-- Mongo filter `dateOfSale: { $gte: startDate, $lt: endDate }`. -/
def inRange (range : DateRange) (d : UTCDate) : Bool :=
  decide (range.startDate.key ≤ d.key) && decide (d.key < range.endDate.key)

/-- Statistics payload written by getStatistics. -/
structure Stats where
  totalSales : ℚ
  totalSoldItems : Nat
  totalNotSoldItems : Nat
deriving DecidableEq, Repr

/-- Core of getStatistics after parameter validation: the two `find` calls
partition the interval's records by the `sold` flag, and totalSales reduces
the sold items' prices from 0. -/
def statisticsValue (range : DateRange) (records : List Record) : Stats :=
  let soldItems := records.filter (fun r => inRange range r.dateOfSale && r.sold)
  let notSoldItems := records.filter (fun r => inRange range r.dateOfSale && !r.sold)
  ⟨soldItems.foldl (fun sum item => sum + item.price) 0,
   soldItems.length, notSoldItems.length⟩

/-- HTTP response of the statistics endpoint. -/
inductive StatsResponse where
  | badRequest (msg : String)
  | ok (s : Stats)
  | serverError (msg : String)
deriving DecidableEq, Repr

/-- getStatistics, as the HTTP response it writes: 400 when month or year is
missing/falsy; otherwise getMonthNumber, getDateRange on the parsed year and
the two `find` calls run inside the `try`, and any thrown error is caught as
the 500 "Error fetching statistics" response. -/
def getStatistics (month year : Option String) (store : Store) : StatsResponse :=
  if strFalsy month || strFalsy year then
    .badRequest "Month and Year are required"
  else
    match getMonthNumber month with
    | .error _ => .serverError "Error fetching statistics"
    | .ok mn =>
        match getDateRange mn (parseIntOpt year) with
        | .error _ => .serverError "Error fetching statistics"
        | .ok range =>
            match store with
            | .error _ => .serverError "Error fetching statistics"
            | .ok records => .ok (statisticsValue range records)

/-- The priceRangeMapping object literal: bucket label to index in the
6-slot result array (`none` = `undefined`, property absent). -/
def priceRangeMapping (label : String) : Option Nat :=
  if label = "0-50" then some 0
  else if label = "51-100" then some 1
  else if label = "101-200" then some 2
  else if label = "201-500" then some 3
  else if label = "501-1000" then some 4
  else if label = "1001+" then some 5
  else none

/-- The `$switch` of the aggregation pipeline in getPriceRangeData: first
matching branch wins, so upper edges are inclusive for the first five
buckets; the `default: "Unknown"` branch is unreachable for numbers since
`price ≤ 1000` and `price > 1000` together cover every price. -/
def priceRange (price : ℚ) : String :=
  if price ≤ 50 then "0-50"
  else if price ≤ 100 then "51-100"
  else if price ≤ 200 then "101-200"
  else if price ≤ 500 then "201-500"
  else if price ≤ 1000 then "501-1000"
  else if price > 1000 then "1001+"
  else "Unknown"

/-- Records passing the `$match` stage of either aggregation pipeline. -/
def matchedRecords (records : List Record) (range : DateRange) : List Record :=
  records.filter (fun r => inRange range r.dateOfSale)

/-- Lexicographic order on character code points, the string order the
store uses for `$sort` on the bucket labels. -/
def charListLt : List Char → List Char → Bool
  | [], [] => false
  | [], _ :: _ => true
  | _ :: _, [] => false
  | a :: as, b :: bs =>
      if a.val < b.val then true
      else if b.val < a.val then false
      else charListLt as bs

/-- Label comparison for the `$sort: { _id: 1 }` stage. -/
def labelLe (a b : String) : Bool :=
  !(charListLt b.data a.data)

/-- One pass of the insertion sort modelling the `$sort: { _id: 1 }` stage. -/
def insertSorted (g : String × Nat) : List (String × Nat) → List (String × Nat)
  | [] => [g]
  | h :: t => if labelLe g.1 h.1 then g :: h :: t else h :: insertSorted g t

/-- The `$sort: { _id: 1 }` stage: groups ordered by bucket label. -/
def sortByLabel : List (String × Nat) → List (String × Nat)
  | [] => []
  | h :: t => insertSorted h (sortByLabel t)

/-- The `$group`, `$sort` and `$project` stages of getPriceRangeData's
pipeline: one `(priceRange, count)` pair per distinct bucket label among the
matched records, ordered by label. -/
def priceGroups (records : List Record) (range : DateRange) : List (String × Nat) :=
  let labels := (matchedRecords records range).map (fun r => priceRange r.price)
  sortByLabel (labels.dedup.map (fun l => (l, (labels.filter (fun x => x = l)).length)))

/-- Body of the forEach over the aggregation output: write the group's
count at priceRangeMapping[label], skipping a label the mapping does not
know (`if (index !== undefined)`). -/
def fillStep (result : List Nat) (item : String × Nat) : List Nat :=
  match priceRangeMapping item.1 with
  | some index => result.set index item.2
  | none => result

/-- The forEach over the aggregation output, starting from
`Array(6).fill(0)`. -/
def fillBuckets (groups : List (String × Nat)) : List Nat :=
  groups.foldl fillStep (List.replicate 6 0)

/-- Result shape of getPriceRangeData: `{ data: [...] }`. -/
structure PriceRangeResult where
  data : List Nat
deriving DecidableEq, Repr

/-- Body of getPriceRangeData's `try` block: short-circuit to the all-zero
array on a falsy month or year, otherwise resolve the interval, run the
aggregation against the store and fill the 6-slot array. -/
def getPriceRangeDataBody (selectedMonth : Option String) (year : Option Int)
    (store : Store) : Except String PriceRangeResult :=
  if strFalsy selectedMonth || numFalsy year then
    .ok ⟨List.replicate 6 0⟩
  else
    match getMonthNumber selectedMonth with
    | .error e => .error e
    | .ok mn =>
        match getDateRange mn year with
        | .error e => .error e
        | .ok range =>
            match store with
            | .error e => .error e
            | .ok records => .ok ⟨fillBuckets (priceGroups records range)⟩

/-- getPriceRangeData: the `catch` turns any thrown error into the all-zero
6-slot fallback, so the caller never sees a failure. -/
def getPriceRangeData (selectedMonth : Option String) (year : Option Int)
    (store : Store) : PriceRangeResult :=
  match getPriceRangeDataBody selectedMonth year store with
  | .ok r => r
  | .error _ => ⟨List.replicate 6 0⟩

/-- One `{ category, count }` entry of the category aggregation. -/
structure CategoryEntry where
  category : String
  count : Nat
deriving DecidableEq, Repr

/-- Result shape of getCategoryData: `{ data: [...] }`. -/
structure CategoryResult where
  data : List CategoryEntry
deriving DecidableEq, Repr

/-- The `$group` and `$project` stages of getCategoryData's pipeline: one
entry per distinct category among the matched records (order left as the
store determines it; here, first-occurrence grouping order). -/
def categoryGroups (records : List Record) (range : DateRange) : List CategoryEntry :=
  let cats := (matchedRecords records range).map (fun r => r.category)
  cats.dedup.map (fun c => ⟨c, (cats.filter (fun x => x = c)).length⟩)

/-- Body of getCategoryData's `try` block: short-circuit to the empty list
on a falsy month or year, otherwise resolve the interval and aggregate. -/
def getCategoryDataBody (selectedMonth : Option String) (year : Option Int)
    (store : Store) : Except String CategoryResult :=
  if strFalsy selectedMonth || numFalsy year then
    .ok ⟨[]⟩
  else
    match getMonthNumber selectedMonth with
    | .error e => .error e
    | .ok mn =>
        match getDateRange mn year with
        | .error e => .error e
        | .ok range =>
            match store with
            | .error e => .error e
            | .ok records => .ok ⟨categoryGroups records range⟩

/-- getCategoryData: the `catch` turns any thrown error into the empty
fallback, so the caller never sees a failure. -/
def getCategoryData (selectedMonth : Option String) (year : Option Int)
    (store : Store) : CategoryResult :=
  match getCategoryDataBody selectedMonth year store with
  | .ok r => r
  | .error _ => ⟨[]⟩

/-- A JS value as seen by `Promise.all` in getCombinedData's statistics
slot: the handler getStatistics returns the Express response object from
its missing-parameter branch and `undefined` from its success and catch
branches — a statistics object is never returned, only written to the
HTTP response. -/
inductive JSValue where
  | undefined
  | responseObject
  | stats (s : Stats)
deriving DecidableEq, Repr

/-- Return value of the async getStatistics (what `await` yields in
getCombinedData): the Express response object after `return res.status(400)
.json(...)`, otherwise `undefined` — `res.json(summary)` is not returned. -/
def getStatisticsReturnValue (month year : Option String) (_store : Store) : JSValue :=
  if strFalsy month || strFalsy year then .responseObject else .undefined

/-- Payload assembled by getCombinedData's `res.json`. -/
structure CombinedPayload where
  statistics : JSValue
  priceRangeData : PriceRangeResult
  categoryData : CategoryResult
deriving DecidableEq, Repr

/-- HTTP response of the combined-data endpoint. -/
inductive CombinedResponse where
  | badRequest (msg : String)
  | payload (p : CombinedPayload)
  | serverError (msg : String)
deriving DecidableEq, Repr

/-- getCombinedData: 400 when month or the parsed year is falsy; otherwise
`Promise.all` of getStatistics (called as a request handler — its resolved
value, not the summary it writes to the response), getPriceRangeData and
getCategoryData, merged into one payload. -/
def getCombinedData (month yearStr : Option String) (store : Store) : CombinedResponse :=
  let selectedMonth := month
  let year := parseIntOpt yearStr
  if strFalsy selectedMonth || numFalsy year then
    .badRequest "Month and Year are required"
  else
    .payload ⟨getStatisticsReturnValue month yearStr store,
              getPriceRangeData selectedMonth year store,
              getCategoryData selectedMonth year store⟩

/-- Incoming record as fetched from the third-party URL, before insertion:
`dateOfSale` is `none` when `Date.parse` cannot parse it. -/
structure RawRecord where
  title : String
  description : String
  price : ℚ
  category : String
  dateOfSale : Option UTCDate
  sold : Bool
  image : String
deriving DecidableEq, Repr

/-- isValidDate in ProductTransaction.js: `Date.parse` succeeded. -/
def isValidDate (d : Option UTCDate) : Bool :=
  d.isSome

/-- deleteMany wrapper: clears the collection. -/
def deleteMany (_store : List RawRecord) : List RawRecord :=
  []

/-- insertMany wrapper in ProductTransaction.js: validates every incoming
record's dateOfSale before any insertion and throws if one is invalid, so a
failing batch inserts nothing. -/
def insertMany (data : List RawRecord) (store : List RawRecord) :
    Except String (List RawRecord) :=
  if data.all (fun t => isValidDate t.dateOfSale) then .ok (store ++ data)
  else .error "Invalid date format in one or more transactions."

/-- HTTP response of the seed endpoint. -/
inductive SeedResponse where
  | badRequest (msg : String)
  | ok (msg : String)
  | serverError (msg : String)
deriving DecidableEq, Repr

/-- seedDatabase over the fetched payload (`none` = missing or not an
array) and the current store contents, returning the response and the store
contents afterwards: deleteMany runs before insertMany, and the `catch`
answers 500 leaving the store as the failed step left it. -/
def seedDatabase (resp : Option (List RawRecord)) (store : List RawRecord) :
    SeedResponse × List RawRecord :=
  match resp with
  | none => (.badRequest "Invalid data format from API", store)
  | some data =>
      let cleared := deleteMany store
      match insertMany data cleared with
      | .ok newStore => (.ok "Database seeded successfully", newStore)
      | .error _ => (.serverError "Error seeding database", cleared)

/-- The March 2022 scenario store of the spec: prices 45 (sold), 45 (not
sold) and 300 (sold), all with dateOfSale in March 2022. -/
def marchStore : List Record :=
  [⟨"a", "d", 45, "catA", ⟨2022, 2, 5⟩, true, "img"⟩,
   ⟨"b", "d", 45, "catA", ⟨2022, 2, 10⟩, false, "img"⟩,
   ⟨"c", "d", 300, "catB", ⟨2022, 2, 20⟩, true, "img"⟩]

/-- A fetched batch whose single record has an unparseable dateOfSale. -/
def badBatch : List RawRecord :=
  [⟨"t", "d", 1, "c", none, true, "i"⟩]

/-- A nonempty previous store contents, used to observe the reseed race. -/
def prevStore : List RawRecord :=
  [⟨"old", "d", 2, "c", some ⟨2022, 0, 1⟩, false, "i"⟩]

/-! ### Helper lemmas -/

theorem foldl_add_price (l : List Record) (a : ℚ) :
    l.foldl (fun sum item => sum + item.price) a = a + (l.map fun r => r.price).sum := by
  induction l generalizing a with
  | nil => simp
  | cons hd tl ih => simp [ih, add_assoc]

theorem length_filter_sold_partition (l : List Record) (p : Record → Bool) :
    (l.filter fun r => p r && r.sold).length + (l.filter fun r => p r && !r.sold).length
      = (l.filter p).length := by
  induction l with
  | nil => rfl
  | cons hd tl ih =>
      cases hb : p hd <;> cases hs : hd.sold <;>
        simp [List.filter_cons, hb, hs] <;> omega

theorem fillStep_length (acc : List Nat) (g : String × Nat) :
    (fillStep acc g).length = acc.length := by
  unfold fillStep
  split <;> simp

theorem foldl_fillStep_length (groups : List (String × Nat)) (acc : List Nat) :
    (groups.foldl fillStep acc).length = acc.length := by
  induction groups generalizing acc with
  | nil => rfl
  | cons g t ih => rw [List.foldl_cons, ih, fillStep_length]

theorem fillBuckets_length (groups : List (String × Nat)) :
    (fillBuckets groups).length = 6 := by
  rw [fillBuckets, foldl_fillStep_length]
  rfl

theorem foldl_fillStep_filter (groups : List (String × Nat)) (acc : List Nat) :
    ((groups.filter fun g => (priceRangeMapping g.1).isSome).foldl fillStep acc)
      = groups.foldl fillStep acc := by
  induction groups generalizing acc with
  | nil => rfl
  | cons g t ih =>
      cases hm : priceRangeMapping g.1 with
      | none => simp [List.filter_cons, hm, fillStep, ih]
      | some i => simp [List.filter_cons, hm, fillStep, ih]

theorem fillBuckets_append_unknown (groups : List (String × Nat)) (label : String) (c : Nat)
    (h : priceRangeMapping label = none) :
    fillBuckets (groups ++ [(label, c)]) = fillBuckets groups := by
  rw [fillBuckets, fillBuckets, List.foldl_append]
  simp [fillStep, h]

theorem getPriceRangeDataBody_ok_length (m : Option String) (y : Option Int) (s : Store)
    (r : PriceRangeResult) (h : getPriceRangeDataBody m y s = .ok r) :
    r.data.length = 6 := by
  unfold getPriceRangeDataBody at h
  split at h
  · cases h
    rfl
  · split at h
    · simp at h
    · split at h
      · simp at h
      · split at h
        · simp at h
        · rw [Except.ok.injEq] at h
          subst h
          exact fillBuckets_length _

theorem getPriceRangeData_data_length (m : Option String) (y : Option Int) (s : Store) :
    (getPriceRangeData m y s).data.length = 6 := by
  unfold getPriceRangeData
  split
  · rename_i r hr
    exact getPriceRangeDataBody_ok_length m y s r hr
  · rfl

theorem strFalsy_false_of_parse_not_falsy {year : Option String}
    (h : numFalsy (parseIntOpt year) = false) : strFalsy year = false := by
  cases year with
  | none => simp [parseIntOpt, numFalsy] at h
  | some s =>
      by_cases hs : s = ""
      · subst hs
        rw [show parseIntOpt (some "") = none from rfl] at h
        simp [numFalsy] at h
      · simp [strFalsy, hs]

/-! ### Claim theorems -/

/-- C1: evaluated at the request month="Mar", year="2022" over the March
2022 store, getCombinedData waits for all three reducers and responds with
the payload structure, but its statistics field is the `undefined` return
value of the getStatistics request handler (which writes the summary to its
own HTTP response and returns nothing), not the Sales Summary value
{totalSales 345, totalSoldItems 2, totalNotSoldItems 1} computed for that
(month, year). -/
theorem C1_combined_statistics_field :
    getCombinedData (some "Mar") (some "2022") (.ok marchStore) =
      .payload ⟨.undefined, ⟨[2, 0, 0, 1, 0, 0]⟩, ⟨[⟨"catA", 2⟩, ⟨"catB", 1⟩]⟩⟩ ∧
    getStatistics (some "Mar") (some "2022") (.ok marchStore) = .ok ⟨345, 2, 1⟩ ∧
    JSValue.undefined ≠ JSValue.stats ⟨345, 2, 1⟩ := by
  refine ⟨by decide, ?_, by decide⟩
  show StatsResponse.ok ⟨0 + 45 + 300, 2, 1⟩ = .ok ⟨345, 2, 1⟩
  norm_num

/-- C2: for every price p ≥ 0 the switch label composed with
priceRangeMapping is total and single-valued, with inclusive upper edges on
the first five buckets and an unbounded sixth (p = 50 lands in bucket 0,
p = 1000 in bucket 4); and the histogram output always reports exactly six
counts in the fixed order, whatever the buckets matched. -/
theorem C2_bucket_assignment (p : ℚ) (_hp : 0 ≤ p)
    (m : Option String) (y : Option Int) (s : Store) :
    priceRangeMapping (priceRange p) =
      some (if p ≤ 50 then 0 else if p ≤ 100 then 1 else if p ≤ 200 then 2
            else if p ≤ 500 then 3 else if p ≤ 1000 then 4 else 5) ∧
    (getPriceRangeData m y s).data.length = 6 := by
  refine ⟨?_, getPriceRangeData_data_length m y s⟩
  unfold priceRange
  split_ifs <;> first | rfl | linarith

/-- Witness for C2 at the boundary price p = 50. -/
theorem C2_bucket_assignment_witness :
    priceRangeMapping (priceRange 50) = some 0 ∧
    (getPriceRangeData (some "Mar") (some 2022) (Except.ok [])).data.length = 6 := by
  have h := C2_bucket_assignment 50 (by norm_num) (some "Mar") (some 2022) (Except.ok [])
  rwa [if_pos (by norm_num : (50 : ℚ) ≤ 50)] at h

/-- C4: Sales Summary's totalSales is the sum of price over the sold
records in the interval only, the two counters are the partition sizes,
an interval matching no records yields {0, 0, 0}, and the March 2022
scenario yields {345, 2, 1}. -/
theorem C4_sales_summary (range : DateRange) (store : List Record) :
    (statisticsValue range store).totalSales =
      ((store.filter fun r => inRange range r.dateOfSale && r.sold).map fun r => r.price).sum ∧
    (statisticsValue range store).totalSoldItems =
      (store.filter fun r => inRange range r.dateOfSale && r.sold).length ∧
    (statisticsValue range store).totalNotSoldItems =
      (store.filter fun r => inRange range r.dateOfSale && !r.sold).length ∧
    ((∀ r ∈ store, inRange range r.dateOfSale = false) →
      statisticsValue range store = ⟨0, 0, 0⟩) ∧
    statisticsValue ⟨⟨2022, 2, 1⟩, ⟨2022, 3, 1⟩⟩ marchStore = ⟨345, 2, 1⟩ := by
  refine ⟨?_, rfl, rfl, ?_, ?_⟩
  · show (store.filter fun r => inRange range r.dateOfSale && r.sold).foldl
        (fun sum item => sum + item.price) 0 = _
    rw [foldl_add_price, zero_add]
  · intro h
    have hs : store.filter (fun r => inRange range r.dateOfSale && r.sold) = [] := by
      rw [List.filter_eq_nil_iff]
      intro r hr
      simp [h r hr]
    have hn : store.filter (fun r => inRange range r.dateOfSale && !r.sold) = [] := by
      rw [List.filter_eq_nil_iff]
      intro r hr
      simp [h r hr]
    simp [statisticsValue, hs, hn]
  · show Stats.mk (0 + 45 + 300) 2 1 = ⟨345, 2, 1⟩
    norm_num

/-- Witness for C4: the empty store matches nothing and yields {0, 0, 0}. -/
theorem C4_sales_summary_witness :
    statisticsValue ⟨⟨2022, 2, 1⟩, ⟨2022, 3, 1⟩⟩ [] = ⟨0, 0, 0⟩ :=
  (C4_sales_summary ⟨⟨2022, 2, 1⟩, ⟨2022, 3, 1⟩⟩ []).2.2.2.1 (by simp)

/-- C5 counterexample: the malformed month "Xyz" with a numeric year is
answered by the statistics handler with the 500-class serverError response,
not a 400-class client error. -/
theorem C5_counterexample_malformed_month_500 :
    getStatistics (some "Xyz") (some "2022") (.ok []) =
      .serverError "Error fetching statistics" := by
  decide

/-- C5 amended: on the statistics endpoint only a missing or falsy
month/year parameter gets the 400 badRequest response, while a
present-but-invalid month name or a year string parsing to NaN throws
inside the try block and the catch answers with the 500-class serverError
response; on the combined-data endpoint the 400 fires exactly when month is
falsy or the parsed year is NaN or 0 (so a non-numeric year is treated as
missing there and yields 400), otherwise the handler answers with a
payload, and with a present-but-invalid month the inner getStatistics call
answers the client with the 500 while the histogram and category reducers
degrade to their zero/empty defaults. -/
theorem C5_amended_status_behavior (month year : Option String) (store : Store) :
    ((strFalsy month || strFalsy year) = true →
      getStatistics month year store = .badRequest "Month and Year are required") ∧
    ((strFalsy month || strFalsy year) = false →
      (getMonthNumber month).isOk = false →
      getStatistics month year store = .serverError "Error fetching statistics") ∧
    ((strFalsy month || strFalsy year) = false →
      parseIntOpt year = none →
      getStatistics month year store = .serverError "Error fetching statistics") ∧
    ((strFalsy month || numFalsy (parseIntOpt year)) = true →
      getCombinedData month year store = .badRequest "Month and Year are required") ∧
    (strFalsy month = false → parseIntOpt year = none →
      getCombinedData month year store = .badRequest "Month and Year are required") ∧
    ((strFalsy month || numFalsy (parseIntOpt year)) = false →
      getCombinedData month year store =
        .payload ⟨getStatisticsReturnValue month year store,
                  getPriceRangeData month (parseIntOpt year) store,
                  getCategoryData month (parseIntOpt year) store⟩) ∧
    ((strFalsy month || numFalsy (parseIntOpt year)) = false →
      (getMonthNumber month).isOk = false →
      getStatistics month year store = .serverError "Error fetching statistics" ∧
      getPriceRangeData month (parseIntOpt year) store = ⟨List.replicate 6 0⟩ ∧
      getCategoryData month (parseIntOpt year) store = ⟨[]⟩) := by
  refine ⟨?_, ?_, ?_, ?_, ?_, ?_, ?_⟩
  · intro h
    simp [getStatistics, h]
  · intro h hm
    cases hmn : getMonthNumber month with
    | error e => simp [getStatistics, h, hmn]
    | ok mn => simp [hmn, Except.isOk, Except.toBool] at hm
  · intro h hy
    cases hmn : getMonthNumber month with
    | error e => simp [getStatistics, h, hmn]
    | ok mn => simp [getStatistics, h, hmn, hy, getDateRange]
  · intro h
    simp [getCombinedData, h]
  · intro hm hy
    have hnum : numFalsy (parseIntOpt year) = true := by rw [hy]; rfl
    simp [getCombinedData, hm, hnum]
  · intro h
    simp [getCombinedData, h]
  · intro hg hm
    have hmf : strFalsy month = false := by
      cases hb : strFalsy month
      · rfl
      · rw [hb] at hg; simp at hg
    have hnf : numFalsy (parseIntOpt year) = false := by
      cases hb : numFalsy (parseIntOpt year)
      · rfl
      · rw [hb] at hg; simp at hg
    have hyf : strFalsy year = false := strFalsy_false_of_parse_not_falsy hnf
    obtain ⟨e, hmn⟩ : ∃ e, getMonthNumber month = .error e := by
      cases hx : getMonthNumber month with
      | error e => exact ⟨e, rfl⟩
      | ok mn => rw [hx] at hm; simp [Except.isOk, Except.toBool] at hm
    refine ⟨?_, ?_, ?_⟩
    · simp [getStatistics, hmf, hyf, hmn]
    · simp [getPriceRangeData, getPriceRangeDataBody, hg, hmn]
    · simp [getCategoryData, getCategoryDataBody, hg, hmn]

/-- Witness for C5's amended theorem: a missing month and year get the 400
response from the statistics handler, and a non-numeric year string gets
the 400 response from the combined-data handler. -/
theorem C5_amended_status_behavior_witness :
    getStatistics none none (Except.ok []) = .badRequest "Month and Year are required" ∧
    getCombinedData (some "Mar") (some "abc") (Except.ok []) =
      .badRequest "Month and Year are required" :=
  ⟨(C5_amended_status_behavior none none (Except.ok [])).1 rfl,
   (C5_amended_status_behavior (some "Mar") (some "abc") (Except.ok [])).2.2.2.2.1
     rfl (by decide)⟩

/-- C6: totalSoldItems plus totalNotSoldItems equals the number of records
whose dateOfSale lies in the half-open interval, for every record set: the
two sold-flag retrievals partition the interval's records. -/
theorem C6_partition_exhaustive (range : DateRange) (store : List Record) :
    (statisticsValue range store).totalSoldItems
      + (statisticsValue range store).totalNotSoldItems
      = (store.filter fun r => inRange range r.dateOfSale).length :=
  length_filter_sold_partition store (fun r => inRange range r.dateOfSale)

/-- C7: with a missing or falsy month or year both reducers short-circuit
to their constant defaults — the all-zero 6-slot array and the empty
sequence — independent of the store (hence without store access), and the
result is the same constant on every repetition. -/
theorem C7_short_circuit_defaults (m : Option String) (y : Option Int) (s1 s2 : Store)
    (h : strFalsy m = true ∨ numFalsy y = true) :
    getPriceRangeData m y s1 = ⟨List.replicate 6 0⟩ ∧
    getCategoryData m y s1 = ⟨[]⟩ ∧
    getPriceRangeData m y s1 = getPriceRangeData m y s2 ∧
    getCategoryData m y s1 = getCategoryData m y s2 := by
  have hb : (strFalsy m || numFalsy y) = true := by
    rcases h with h | h <;> simp [h]
  refine ⟨?_, ?_, ?_, ?_⟩ <;>
    simp [getPriceRangeData, getPriceRangeDataBody, getCategoryData, getCategoryDataBody, hb]

/-- Witness for C7 with an undefined month and two different stores. -/
theorem C7_short_circuit_defaults_witness :
    getPriceRangeData none (some 5) (Except.ok marchStore) = ⟨List.replicate 6 0⟩ ∧
    getCategoryData none (some 5) (Except.ok marchStore) = ⟨[]⟩ ∧
    getPriceRangeData none (some 5) (Except.ok marchStore) =
      getPriceRangeData none (some 5) (Except.error "store down") ∧
    getCategoryData none (some 5) (Except.ok marchStore) =
      getCategoryData none (some 5) (Except.error "store down") :=
  C7_short_circuit_defaults none (some 5) (Except.ok marchStore)
    (Except.error "store down") (Or.inl rfl)

/-- C8: whenever the try-block body of either reducer fails (resolver
rejection or store error), the catch returns the all-zero 6-slot array
respectively the empty sequence; in general each call returns either its
successful body value or that default, never an error. -/
theorem C8_failure_fallback (m : Option String) (y : Option Int) (s : Store) :
    ((getPriceRangeDataBody m y s).isOk = false →
      getPriceRangeData m y s = ⟨List.replicate 6 0⟩) ∧
    ((getCategoryDataBody m y s).isOk = false →
      getCategoryData m y s = ⟨[]⟩) ∧
    (getPriceRangeDataBody m y s = .ok (getPriceRangeData m y s) ∨
      getPriceRangeData m y s = ⟨List.replicate 6 0⟩) ∧
    (getCategoryDataBody m y s = .ok (getCategoryData m y s) ∨
      getCategoryData m y s = ⟨[]⟩) := by
  refine ⟨?_, ?_, ?_, ?_⟩
  · intro h
    cases hb : getPriceRangeDataBody m y s with
    | ok r => rw [hb] at h; simp [Except.isOk, Except.toBool] at h
    | error e => simp [getPriceRangeData, hb]
  · intro h
    cases hb : getCategoryDataBody m y s with
    | ok r => rw [hb] at h; simp [Except.isOk, Except.toBool] at h
    | error e => simp [getCategoryData, hb]
  · cases hb : getPriceRangeDataBody m y s with
    | ok r => exact Or.inl (by simp [getPriceRangeData, hb])
    | error e => exact Or.inr (by simp [getPriceRangeData, hb])
  · cases hb : getCategoryDataBody m y s with
    | ok r => exact Or.inl (by simp [getCategoryData, hb])
    | error e => exact Or.inr (by simp [getCategoryData, hb])

/-- Witness for C8 at the invalid month "Xyz", which makes both try-block
bodies throw. -/
theorem C8_failure_fallback_witness :
    getPriceRangeData (some "Xyz") (some 2022) (Except.ok marchStore) = ⟨List.replicate 6 0⟩ ∧
    getCategoryData (some "Xyz") (some 2022) (Except.ok marchStore) = ⟨[]⟩ :=
  ⟨(C8_failure_fallback (some "Xyz") (some 2022) (Except.ok marchStore)).1 (by decide),
   (C8_failure_fallback (some "Xyz") (some 2022) (Except.ok marchStore)).2.1 (by decide)⟩

/-- C9: the histogram result is always exactly six natural-number counts
(non-negative by type), and an aggregation group whose label is unknown to
priceRangeMapping — such as the "Unknown" default — is silently dropped:
appending it changes nothing, and filtering all unknown-label groups away
leaves the array unchanged. -/
theorem C9_six_slot_invariant (m : Option String) (y : Option Int) (s : Store)
    (label : String) (c : Nat) (groups : List (String × Nat))
    (h : priceRangeMapping label = none) :
    (getPriceRangeData m y s).data.length = 6 ∧
    (∀ n ∈ (getPriceRangeData m y s).data, 0 ≤ n) ∧
    fillBuckets (groups ++ [(label, c)]) = fillBuckets groups ∧
    fillBuckets (groups.filter fun g => (priceRangeMapping g.1).isSome) = fillBuckets groups :=
  ⟨getPriceRangeData_data_length m y s,
   fun n _ => Nat.zero_le n,
   fillBuckets_append_unknown groups label c h,
   by rw [fillBuckets, fillBuckets, foldl_fillStep_filter]⟩

/-- Witness for C9 with the "Unknown" default label. -/
theorem C9_six_slot_invariant_witness :
    (getPriceRangeData (some "Mar") (some 2022) (Except.ok [])).data.length = 6 ∧
    fillBuckets ([("0-50", 2)] ++ [("Unknown", 3)]) = fillBuckets [("0-50", 2)] := by
  have h := C9_six_slot_invariant (some "Mar") (some 2022) (Except.ok [])
    "Unknown" 3 [("0-50", 2)] (by decide)
  exact ⟨h.1, h.2.2.1⟩

/-- C10: if the fetched batch contains a record with an unparseable
dateOfSale, seedDatabase deletes the old contents, insertMany validates and
throws before inserting anything, and the endpoint answers 500 with the
store left empty — the previous contents are not restored. -/
theorem C10_reseed_not_atomic (data store : List RawRecord) (r : RawRecord)
    (h1 : r ∈ data) (h2 : r.dateOfSale = none) :
    seedDatabase (some data) store = (.serverError "Error seeding database", []) := by
  have hall : data.all (fun t => isValidDate t.dateOfSale) = false := by
    cases hx : data.all (fun t => isValidDate t.dateOfSale) with
    | false => rfl
    | true =>
        have := (List.all_eq_true.mp hx) r h1
        rw [h2] at this
        simp [isValidDate] at this
  simp [seedDatabase, deleteMany, insertMany, hall]

/-- Witness for C10: a nonempty store reseeded with an invalid batch ends
empty with a 500 response. -/
theorem C10_reseed_not_atomic_witness :
    seedDatabase (some badBatch) prevStore = (.serverError "Error seeding database", []) :=
  C10_reseed_not_atomic badBatch prevStore ⟨"t", "d", 1, "c", none, true, "i"⟩
    (by simp [badBatch]) rfl

end Roxiler
